import Mathlib

/-!
Verification of the synthetic weather-series generator and its derived
statistics, embedded from `src/components/WeatherDashboard.tsx`.

The generator (`fetchWeatherData`) produces one data point per year in
`[baseYear, currentYear)`.  Each point's value is
`max 0 (baseValue + seasonalVariation + longTermTrend + randomNoise)`,
where the four components are selected by a `switch` on the selected
parameter string (with per-region baselines), and an unrecognized
parameter falls into the `default` branch (`baseValue = 100`, all other
components `0`).  The ambient `Math.random()` call is modelled as an
explicit random source `ℕ → ℝ`, sampled once per index, as the spec's
contract `generate(region, parameter, baseYear, currentYear, randomSource)`
prescribes.  Numeric literals are exact rationals; arithmetic is over ℝ
(with `Real.sin` for `Math.sin`), the usual idealization of JS numbers.
-/

/-- The unit record of the series, from the `WeatherData` interface. -/
structure WeatherData where
  year : ℕ
  value : ℝ
  region : String
  parameter : String

/-- The enumerated region values (the `value` field of the `regions` array). -/
def regionValues : List String :=
  ["UK", "England", "Wales", "Scotland", "NorthernIreland"]

/-- The enumerated climate-parameter values (the `value` field of the
`parameters` array). -/
def parameterValues : List String :=
  ["Tmax", "Tmin", "Tmean", "Rainfall", "Sunshine"]

/-- The `baseValue` assignment of the `switch` in `fetchWeatherData`: the per-(parameter,
region) baseline constant, `100` in the `default` branch.  Valued in ℚ so
table entries are decidably comparable; it is cast to ℝ where used. -/
def baseValue (region parameter : String) : ℚ :=
  if parameter = "Tmax" then
    if region = "Scotland" then 13.2 else if region = "UK" then 14.8 else 15.1
  else if parameter = "Tmin" then
    if region = "Scotland" then 4.1 else if region = "UK" then 6.2 else 6.8
  else if parameter = "Tmean" then
    if region = "Scotland" then 8.7 else if region = "UK" then 10.5 else 11.0
  else if parameter = "Rainfall" then
    if region = "Wales" then 1680 else if region = "Scotland" then 1500 else 1154
  else if parameter = "Sunshine" then
    if region = "Scotland" then 1250 else if region = "England" then 1550 else 1400
  else 100

/-- The `seasonalVariation` assignment of the `switch`: `Math.sin(i * frequency) * amplitude`
per recognized parameter, `0` in the `default` branch. -/
noncomputable def seasonalVariation (parameter : String) (i : ℕ) : ℝ :=
  if parameter = "Tmax" then Real.sin ((i : ℝ) * 0.15) * 1.2
  else if parameter = "Tmin" then Real.sin ((i : ℝ) * 0.18) * 0.9
  else if parameter = "Tmean" then Real.sin ((i : ℝ) * 0.16) * 1.0
  else if parameter = "Rainfall" then Real.sin ((i : ℝ) * 0.12) * 200
  else if parameter = "Sunshine" then Real.sin ((i : ℝ) * 0.14) * 150
  else 0

/-- The `longTermTrend` assignment of the `switch`: `yearProgress * slope` per recognized
parameter, `0` in the `default` branch. -/
def longTermTrend (parameter : String) (yearProgress : ℝ) : ℝ :=
  if parameter = "Tmax" then yearProgress * 1.8
  else if parameter = "Tmin" then yearProgress * 1.5
  else if parameter = "Tmean" then yearProgress * 1.6
  else if parameter = "Rainfall" then yearProgress * 50
  else if parameter = "Sunshine" then yearProgress * (-20)
  else 0

/-- The `randomNoise` assignment of the `switch`: `(randomSource() - 0.5) * amplitude` per
recognized parameter (`r` is the sample drawn for this point), `0` in the
`default` branch — note the `default` branch discards the sample
entirely. -/
def randomNoise (parameter : String) (r : ℝ) : ℝ :=
  if parameter = "Tmax" then (r - 0.5) * 1.5
  else if parameter = "Tmin" then (r - 0.5) * 1.2
  else if parameter = "Tmean" then (r - 0.5) * 1.0
  else if parameter = "Rainfall" then (r - 0.5) * 300
  else if parameter = "Sunshine" then (r - 0.5) * 200
  else 0

/-- The per-point value: `Math.max(0, baseValue + seasonalVariation +
longTermTrend + randomNoise)` with `yearProgress = i / yearRange`. -/
noncomputable def pointValue (region parameter : String) (yearRange i : ℕ)
    (r : ℝ) : ℝ :=
  max 0 ((baseValue region parameter : ℝ) + seasonalVariation parameter i
    + longTermTrend parameter ((i : ℝ) / (yearRange : ℝ)) + randomNoise parameter r)

/-- The series generator of `fetchWeatherData`: `Array.from({length:
yearRange}, (_, i) => ({year: baseYear + i, value: ..., region, parameter}))`
with `yearRange = currentYear - baseYear`.  The random source is sampled
once per index, standing for the per-point `Math.random()` call. -/
noncomputable def fetchWeatherData (region parameter : String)
    (baseYear currentYear : ℕ) (randomSource : ℕ → ℝ) : List WeatherData :=
  let yearRange := currentYear - baseYear
  (List.range yearRange).map fun i =>
    { year := baseYear + i
      value := pointValue region parameter yearRange i (randomSource i)
      region := region
      parameter := parameter }

/-- Placeholder record standing for JavaScript `undefined`, used only as the
unused default of total versions of `data[0]` / `data[data.length - 1]`. -/
def wdUndefined : WeatherData :=
  { year := 0, value := 0, region := "", parameter := "" }

/-- The statistic `latest = data[data.length - 1]`: `undefined` (here `none`) on the empty
array. -/
def latest (data : List WeatherData) : Option WeatherData :=
  data.getLast?

/-- The statistic `average = data.length > 0 ? data.reduce((sum, d) => sum + d.value, 0) /
data.length : 0`. -/
noncomputable def average (data : List WeatherData) : ℝ :=
  if 0 < data.length then (data.map WeatherData.value).sum / data.length else 0

/-- The statistic `trend = data.length > 1 ? data[data.length - 1].value - data[0].value :
0`. -/
noncomputable def trend (data : List WeatherData) : ℝ :=
  if 1 < data.length then
    (data.getLastD wdUndefined).value - (data.headD wdUndefined).value
  else 0

/-- Claim C2: with `baseYear < currentYear`, the generated series has exactly
`currentYear - baseYear` points, and point `i` has year `baseYear + i` (so
years are consecutive strictly increasing integers starting at `baseYear`). -/
theorem series_length_and_years (region parameter : String)
    (baseYear currentYear : ℕ) (randomSource : ℕ → ℝ)
    (h : baseYear < currentYear) :
    (fetchWeatherData region parameter baseYear currentYear randomSource).length
        = currentYear - baseYear ∧
    ∀ i (hi : i < (fetchWeatherData region parameter baseYear currentYear
        randomSource).length),
      ((fetchWeatherData region parameter baseYear currentYear
        randomSource).get ⟨i, hi⟩).year = baseYear + i := by
  refine ⟨by simp [fetchWeatherData], fun i hi => ?_⟩
  simp [fetchWeatherData]

/-- Witness for C2 at `region = "UK"`, `parameter = "Tmax"`,
`baseYear = 1884`, `currentYear = 1886`. -/
theorem series_length_and_years_witness :
    (fetchWeatherData "UK" "Tmax" 1884 1886 (fun _ => 0)).length = 1886 - 1884 ∧
    ((fetchWeatherData "UK" "Tmax" 1884 1886 (fun _ => 0)).get
      ⟨0, by simp [fetchWeatherData]⟩).year = 1884 + 0 :=
  ⟨(series_length_and_years "UK" "Tmax" 1884 1886 (fun _ => 0) (by norm_num)).1,
   (series_length_and_years "UK" "Tmax" 1884 1886 (fun _ => 0) (by norm_num)).2 0 _⟩

/-- Claim C3: every point of every generated series has a non-negative value
(the clamp `Math.max(0, …)` enforces it for every region, parameter, year
range and random source). -/
theorem value_nonneg (region parameter : String) (baseYear currentYear : ℕ)
    (randomSource : ℕ → ℝ) (p : WeatherData)
    (hp : p ∈ fetchWeatherData region parameter baseYear currentYear randomSource) :
    0 ≤ p.value := by
  simp only [fetchWeatherData, List.mem_map, List.mem_range] at hp
  obtain ⟨i, hi, rfl⟩ := hp
  simp only [pointValue]
  exact le_max_left 0 _

/-- Witness for C3: the single point of the series for `"UK"`/`"Humidity"`
over 1884–1885 has non-negative value. -/
theorem value_nonneg_witness :
    0 ≤ (WeatherData.mk (1884 + 0)
      (pointValue "UK" "Humidity" 1 0 ((fun _ : ℕ => (0 : ℝ)) 0)) "UK" "Humidity").value :=
  value_nonneg "UK" "Humidity" 1884 1885 (fun _ => 0) _
    (by simp [fetchWeatherData])

/-- Claim C5: `fetchWeatherData "UK" "Tmax" 1884 1885` with the constant-`1/2`
random source yields exactly one point, `{year := 1884, value := 14.8}`. -/
theorem single_point_uk_tmax :
    fetchWeatherData "UK" "Tmax" 1884 1885 (fun _ => 1/2)
      = [{ year := 1884, value := 14.8, region := "UK", parameter := "Tmax" }] := by
  have h0 : List.range (1885 - 1884) = [0] := rfl
  simp [fetchWeatherData, h0, pointValue, baseValue, seasonalVariation,
    longTermTrend, randomNoise]
  norm_num

/-- Claim C6: with the unrecognized parameter `"Humidity"` and the
constant-`1/2` random source, every point of the series has value exactly
`100`, for every region and year range. -/
theorem humidity_all_hundred (region : String) (baseYear currentYear : ℕ)
    (p : WeatherData)
    (hp : p ∈ fetchWeatherData region "Humidity" baseYear currentYear (fun _ => 1/2)) :
    p.value = 100 := by
  simp only [fetchWeatherData, List.mem_map, List.mem_range] at hp
  obtain ⟨i, hi, rfl⟩ := hp
  simp [pointValue, baseValue, seasonalVariation, longTermTrend, randomNoise]

/-- Witness for C6 at `region = "Wales"`, years 1884–1885. -/
theorem humidity_all_hundred_witness :
    (WeatherData.mk (1884 + 0)
      (pointValue "Wales" "Humidity" 1 0 ((fun _ : ℕ => (1/2 : ℝ)) 0))
      "Wales" "Humidity").value = 100 :=
  humidity_all_hundred "Wales" 1884 1885 _ (by simp [fetchWeatherData])

/-- Claim C9: on the empty series the three summary statistics are total:
`latest` is absent (`none`), `average = 0` and `trend = 0`. -/
theorem empty_series_stats :
    latest ([] : List WeatherData) = none
      ∧ average ([] : List WeatherData) = 0
      ∧ trend ([] : List WeatherData) = 0 := by
  refine ⟨rfl, ?_, ?_⟩ <;> simp [average, trend]

/-- Claim C7: on every non-empty series the `trend` statistic equals
`series[last].value - series[first].value`; for a one-point series both are
the same point and the statistic is `0`, so the equality still holds. -/
theorem trend_eq_last_sub_first (data : List WeatherData) (h : data ≠ []) :
    trend data = (data.getLast h).value - (data.head h).value := by
  rcases data with _ | ⟨x, _ | ⟨y, rest⟩⟩
  · exact absurd rfl h
  · simp [trend]
  · have hlen : 1 < (x :: y :: rest).length := by simp
    simp only [trend, if_pos hlen, List.getLastD_eq_getLast? _ _,
      List.getLast?_eq_getLast_of_ne_nil h, List.headD_eq_head? _ _,
      List.head?_eq_head h, Option.getD_some]

/-- Witness for C7 on a concrete two-point series with values `1` and `3`. -/
theorem trend_eq_last_sub_first_witness :
    trend [⟨1884, 1, "UK", "Tmax"⟩, ⟨1885, 3, "UK", "Tmax"⟩]
      = (([⟨1884, 1, "UK", "Tmax"⟩, ⟨1885, 3, "UK", "Tmax"⟩] :
          List WeatherData).getLast (by simp)).value
        - (([⟨1884, 1, "UK", "Tmax"⟩, ⟨1885, 3, "UK", "Tmax"⟩] :
          List WeatherData).head (by simp)).value :=
  trend_eq_last_sub_first [⟨1884, 1, "UK", "Tmax"⟩, ⟨1885, 3, "UK", "Tmax"⟩]
    (by simp)

/-- A lower bound on every element of a list of reals bounds its sum from
below by `length * bound`. -/
theorem length_mul_le_sum (l : List ℝ) (m : ℝ) (hm : ∀ x ∈ l, m ≤ x) :
    (l.length : ℝ) * m ≤ l.sum := by
  induction l with
  | nil => simp
  | cons x xs ih =>
    have hx : m ≤ x := hm x (List.mem_cons_self x xs)
    have ih' := ih fun y hy => hm y (List.mem_cons_of_mem x hy)
    simp only [List.length_cons, List.sum_cons]
    push_cast
    calc ((xs.length : ℝ) + 1) * m = (xs.length : ℝ) * m + m := by ring
    _ ≤ xs.sum + x := add_le_add ih' hx
    _ = x + xs.sum := add_comm _ _

/-- An upper bound on every element of a list of reals bounds its sum from
above by `length * bound`. -/
theorem sum_le_length_mul (l : List ℝ) (M : ℝ) (hM : ∀ x ∈ l, x ≤ M) :
    l.sum ≤ (l.length : ℝ) * M := by
  induction l with
  | nil => simp
  | cons x xs ih =>
    have hx : x ≤ M := hM x (List.mem_cons_self x xs)
    have ih' := ih fun y hy => hM y (List.mem_cons_of_mem x hy)
    simp only [List.length_cons, List.sum_cons]
    push_cast
    calc x + xs.sum ≤ M + (xs.length : ℝ) * M := add_le_add hx ih'
    _ = ((xs.length : ℝ) + 1) * M := by ring

/-- Claim C8: on every non-empty series, the `average` statistic lies between
the minimum and the maximum of the series' values (here `m` and `M`,
characterized as members of the value list bounding all values). -/
theorem average_between_min_and_max (data : List WeatherData) (m M : ℝ)
    (hm : m ∈ data.map WeatherData.value)
    (hmin : ∀ x ∈ data.map WeatherData.value, m ≤ x)
    (hM : M ∈ data.map WeatherData.value)
    (hmax : ∀ x ∈ data.map WeatherData.value, x ≤ M) :
    m ≤ average data ∧ average data ≤ M := by
  have hne : data ≠ [] := by rintro rfl; simp at hm
  have hpos : 0 < data.length := List.length_pos.mpr hne
  have hposR : (0 : ℝ) < data.length := by exact_mod_cast hpos
  have hlen : (data.map WeatherData.value).length = data.length :=
    List.length_map _ _
  constructor
  · rw [average, if_pos hpos, le_div_iff₀ hposR]
    have hb := length_mul_le_sum (data.map WeatherData.value) m hmin
    rw [hlen] at hb
    linarith
  · rw [average, if_pos hpos, div_le_iff₀ hposR]
    have hb := sum_le_length_mul (data.map WeatherData.value) M hmax
    rw [hlen] at hb
    linarith

/-- Witness for C8 on a two-point series with values `1` and `3`. -/
theorem average_between_min_and_max_witness :
    1 ≤ average [⟨1884, 1, "UK", "Tmax"⟩, ⟨1885, 3, "UK", "Tmax"⟩]
      ∧ average [⟨1884, 1, "UK", "Tmax"⟩, ⟨1885, 3, "UK", "Tmax"⟩] ≤ 3 :=
  average_between_min_and_max _ 1 3 (by simp)
    (by intro x hx; simp at hx; rcases hx with rfl | rfl <;> norm_num)
    (by simp)
    (by intro x hx; simp at hx; rcases hx with rfl | rfl <;> norm_num)

/-- Claim C10: with an unrecognized parameter the generated series does not
depend on the random source at all — the `default` branch sets the noise
component itself to `0` — and every value is exactly `100`. -/
theorem unrecognized_parameter_ignores_randomness (region parameter : String)
    (baseYear currentYear : ℕ) (rand1 rand2 : ℕ → ℝ)
    (hp : parameter ∉ parameterValues) :
    fetchWeatherData region parameter baseYear currentYear rand1
        = fetchWeatherData region parameter baseYear currentYear rand2
      ∧ ∀ p ∈ fetchWeatherData region parameter baseYear currentYear rand1,
          p.value = 100 := by
  simp only [parameterValues, List.mem_cons, List.not_mem_nil, or_false,
    not_or] at hp
  obtain ⟨h1, h2, h3, h4, h5⟩ := hp
  have hv : ∀ (yr i : ℕ) (r : ℝ), pointValue region parameter yr i r = 100 := by
    intro yr i r
    simp [pointValue, baseValue, seasonalVariation, longTermTrend, randomNoise,
      h1, h2, h3, h4, h5]
  constructor
  · simp only [fetchWeatherData]
    exact List.map_congr_left fun i _ => by simp [hv]
  · intro p hp'
    simp only [fetchWeatherData, List.mem_map, List.mem_range] at hp'
    obtain ⟨i, hi, rfl⟩ := hp'
    simpa using hv (currentYear - baseYear) i (rand1 i)

/-- Witness for C10: `"Humidity"` with two different random sources. -/
theorem unrecognized_parameter_ignores_randomness_witness :
    fetchWeatherData "UK" "Humidity" 1884 1885 (fun _ => 0)
      = fetchWeatherData "UK" "Humidity" 1884 1885 (fun _ => 1) :=
  (unrecognized_parameter_ignores_randomness "UK" "Humidity" 1884 1885
    (fun _ => 0) (fun _ => 1) (by simp [parameterValues])).1

/-- Counterexample to C1 as stated: for the unrecognized region
`"Atlantis"` and the recognized parameter `"Tmax"` (noise suppressed by the
constant-`1/2` source), the single generated value is `15.1`, not `100` —
the neutral `default` fallback is keyed on the parameter only, so an
unrecognized region falls into the per-parameter `else` baseline. -/
theorem unknown_region_value_not_hundred :
    (fetchWeatherData "Atlantis" "Tmax" 1884 1885 (fun _ => 1/2)).map
        WeatherData.value = [15.1]
      ∧ (15.1 : ℝ) ≠ 100 := by
  constructor
  · have h0 : List.range (1885 - 1884) = [0] := rfl
    simp [fetchWeatherData, h0, pointValue, baseValue, seasonalVariation,
      longTermTrend, randomNoise]
    norm_num
  · norm_num

/-- Claim C1 (amended): for every unrecognized region and every recognized
parameter, the generator does not fall back to the neutral baseline `100`;
it produces exactly the values of the non-override enumerated region
`"NorthernIreland"` — the parameter's `else`-branch baseline with the
normal seasonal, trend and noise components. -/
theorem unknown_region_uses_default_baseline (region : String)
    (hr : region ∉ regionValues) (parameter : String)
    (hp : parameter ∈ parameterValues) (baseYear currentYear : ℕ)
    (randomSource : ℕ → ℝ) :
    (fetchWeatherData region parameter baseYear currentYear randomSource).map
        WeatherData.value
      = (fetchWeatherData "NorthernIreland" parameter baseYear currentYear
          randomSource).map WeatherData.value := by
  simp only [regionValues, List.mem_cons, List.not_mem_nil, or_false,
    not_or] at hr
  obtain ⟨hUK, hEng, hWal, hSco, hNI⟩ := hr
  have hbase : baseValue region parameter
      = baseValue "NorthernIreland" parameter := by
    fin_cases hp <;> simp [baseValue, hUK, hEng, hWal, hSco]
  simp only [fetchWeatherData, List.map_map]
  exact List.map_congr_left fun i _ => by simp [Function.comp, pointValue, hbase]

/-- Witness for the amended C1 at `region = "Atlantis"`,
`parameter = "Tmax"`, years 1884–1886. -/
theorem unknown_region_uses_default_baseline_witness :
    (fetchWeatherData "Atlantis" "Tmax" 1884 1886 (fun _ => 0)).map
        WeatherData.value
      = (fetchWeatherData "NorthernIreland" "Tmax" 1884 1886 (fun _ => 0)).map
          WeatherData.value :=
  unknown_region_uses_default_baseline "Atlantis" (by simp [regionValues])
    "Tmax" (by simp [parameterValues]) 1884 1886 (fun _ => 0)

/-- Counterexample to C4 as stated: there is no single alt-region override
for `Tmax` — whichever region is designated as the single `15.1` override,
some other non-Scotland region still has baseline `15.1 ≠ 14.8` (both
`"England"` and `"Wales"` sit in the `else` branch, and `14.8` is in fact
the `"UK"`-only override). -/
theorem no_single_alt_region_for_tmax :
    ¬ ∃ alt : String, ∀ r ∈ regionValues, r ≠ "Scotland" → r ≠ alt →
        baseValue r "Tmax" = 14.8 := by
  rintro ⟨alt, h⟩
  by_cases halt : alt = "England"
  · have hw := h "Wales" (by simp [regionValues]) (by simp) (by simp [halt])
    simp [baseValue] at hw
    norm_num at hw
  · have he := h "England" (by simp [regionValues]) (by simp) (Ne.symm halt)
    simp [baseValue] at he
    norm_num at he

/-- Claim C4 (amended): each parameter's default-branch constant is used by
every enumerated region not explicitly named in that parameter's
conditional.  For the temperature parameters the named overrides are
Scotland and UK (e.g. `13.2` and `14.8` for `Tmax`), so England, Wales and
Northern Ireland all use the `else` constants `15.1` / `6.8` / `11.0`;
for `Rainfall` (Wales `1680`, Scotland `1500`) the default is `1154`; for
`Sunshine` (Scotland `1250`, England `1550`) the default is `1400`. -/
theorem default_baselines_table (r : String) (hr : r ∈ regionValues) :
    (r ≠ "Scotland" ∧ r ≠ "UK" →
        baseValue r "Tmax" = 15.1 ∧ baseValue r "Tmin" = 6.8
          ∧ baseValue r "Tmean" = 11.0)
      ∧ (r ≠ "Wales" ∧ r ≠ "Scotland" → baseValue r "Rainfall" = 1154)
      ∧ (r ≠ "Scotland" ∧ r ≠ "England" → baseValue r "Sunshine" = 1400)
      ∧ baseValue "Scotland" "Tmax" = 13.2
      ∧ baseValue "UK" "Tmax" = 14.8 := by
  fin_cases hr <;> simp [baseValue]

/-- Witness for the amended C4 at the non-override region `"Wales"`. -/
theorem default_baselines_table_witness :
    baseValue "Wales" "Tmax" = 15.1 ∧ baseValue "Wales" "Tmin" = 6.8
      ∧ baseValue "Wales" "Tmean" = 11.0 :=
  (default_baselines_table "Wales" (by simp [regionValues])).1 (by simp)
